import Mathlib

/-!
Verification development for the cognoma/cognoml pipeline.

The Python sources `cognoml/data.py` and `cognoml/analysis.py` are shallowly
embedded below.  Data frames indexed by `sample_id` become association lists,
the local filesystem becomes a map from paths to file contents, and the
external collaborators (pandas, scikit-learn, the figshare HTTP API) are
modelled by their documented behaviour at exactly the operations the code
uses.  Machine floats of the source are represented by rationals.
-/

/-- A sample identifier (the shared key of all tables). -/
abbrev SampleId := Nat

/-- One expression row: the feature vector of a sample. -/
abbrev Features := List Int

/-- An expression table: rows `(sample_id, features)` in frame order. -/
abbrev XFrame := List (SampleId × Features)

/-- A label series: entries `(sample_id, mutation_status)` in order. -/
abbrev YSeries := List (SampleId × Int)

/-- The local filesystem: a map from paths to file contents.  Only regular
files are modelled; `utils.create_dir` (whose module is not among the
reviewed sources) only ensures parent directories exist and never touches
file contents, so directories carry no information here. -/
abbrev FS := String → Option String

/-- Writing one file: the path now holds `c`, every other path is unchanged. -/
def fsWrite (fs : FS) (p c : String) : FS :=
  fun q => if q = p then some c else fs q

/-- `os.path.join` for the two-component joins the code performs. -/
def pathJoin (a b : String) : String := a ++ "/" ++ b

/-- pandas `DataFrame.loc[labels, :]` for a list of requested index labels:
for each requested label, every row bearing that label, in request order;
if any requested label is absent from the index the call raises `KeyError`
(documented pandas behaviour for list-like indexers with missing labels). -/
def locRows (rows : XFrame) (labels : List SampleId) : Except String XFrame :=
  if labels.all (fun l => rows.any (fun r => r.1 == l)) then
    .ok (labels.flatMap (fun l => rows.filter (fun r => r.1 == l)))
  else
    .error "KeyError: a requested sample_id is absent from the index"

/-- pandas `Series.isin` of one element against a column, already cast by
`.astype(int)`: `1` when the value occurs in the column, else `0`. -/
def isinInt (a : SampleId) (l : List SampleId) : Int :=
  if l.contains a then 1 else 0

/-! ## data.py -/

/-- Errors raised by `CognomlData.get_df_from_table`. -/
inductive DataError where
  | keyError (msg : String)
  | ioError (msg : String)
deriving Repr, DecidableEq

/-- `CognomlData` (data.py): the fields that the modelled methods read.
The constructor's network interactions (`get_article_version`,
`get_mutations_df`, version resolution) only fill these fields; their
values are taken as given here. -/
structure CognomlData where
  directory : String
  version : String
  covariates_file : String
  expressions_file : String

/-- `self._download_path = os.path.join(self._directory, 'v' + version)`. -/
def CognomlData.download_path (d : CognomlData) : String :=
  pathJoin d.directory ("v" ++ d.version)

/-- `self._files_to_download = [covariates_file, expressions_file]`. -/
def CognomlData.files_to_download (d : CognomlData) : List String :=
  [d.covariates_file, d.expressions_file]

/-- pandas `read_pickle`: deserializes a cached parsed table.  The parsed
frame is represented by its serialized content, so deserialization is the
identity injection. -/
def read_pickle (s : String) : String := s

/-- pandas `read_table(..., index_col=0)`: parses a raw tsv file.  The
parsed frame is represented by the content it was parsed from. -/
def read_table (s : String) : String := s

/-- pandas `DataFrame.to_pickle`: serializes a parsed table for the cache. -/
def to_pickle (df : String) : String := df

/-- `CognomlData.get_df_from_table` (data.py lines 136-168).  Returns the
filesystem after the call together with the outcome:
`KeyError` when the filename is not one of the two expected data files,
otherwise the cached pickle if present, otherwise the parsed raw file
(writing the pickle cache), otherwise `IOError`. -/
def CognomlData.get_df_from_table (d : CognomlData) (fs : FS) (tsv_file : String) :
    FS × Except DataError String :=
  let pickle_dict := d.files_to_download.map (fun f => (f, f ++ "_pickle"))
  match pickle_dict.lookup tsv_file with
  | none =>
      (fs, .error (.keyError "Not expected input, choose either the covariates file or the expressions file"))
  | some pickle_file =>
      let data_path := pathJoin d.download_path tsv_file
      let pickle_path := pathJoin d.download_path pickle_file
      match fs pickle_path with
      | some cached => (fs, .ok (read_pickle cached))
      | none =>
          match fs data_path with
          | none => (fs, .error (.ioError "bz2 file does not exist, try running download_files()"))
          | some raw =>
              let df := read_table raw
              (fsWrite fs pickle_path (to_pickle df), .ok df)

/-- One entry of the figshare article manifest. -/
structure FileInfo where
  name : String
  download_url : String
deriving DecidableEq

/-- The figshare article manifest fetched by `download_files`. -/
structure Article where
  files : List FileInfo

/-- `json.dump(article, ...)`: the serialized manifest written to info.json. -/
def dumpArticle (a : Article) : String :=
  String.intercalate "," (a.files.map (fun f => f.name ++ " " ++ f.download_url))

/-- The download loop of `CognomlData.download_files` (data.py lines
120-132): for each manifest entry whose name is among the files to
download, fetch it to its target path unless that path already exists;
other manifest entries are skipped. -/
def downloadLoop (net : String → String) (d : CognomlData) (fs : FS) :
    List FileInfo → FS
  | [] => fs
  | fi :: rest =>
      let fs2 :=
        if fi.name ∈ d.files_to_download ∧ fs (pathJoin d.download_path fi.name) = none then
          fsWrite fs (pathJoin d.download_path fi.name) (net fi.download_url)
        else fs
      downloadLoop net d fs2 rest

/-- `CognomlData.download_files` (data.py lines 91-134).  The article
manifest is the response of the version URL request and `net` maps a
download URL to the bytes the remote serves; the directory creations are
content-free (see `FS`).  Writes `info.json`, then runs the download loop,
and returns the new filesystem with the version-scoped directory. -/
def CognomlData.download_files (d : CognomlData) (net : String → String)
    (article : Article) (fs : FS) : FS × String :=
  let fs1 := fsWrite fs (pathJoin d.download_path "info.json") (dumpArticle article)
  (downloadLoop net d fs1 article.files, d.download_path)

/-- `CognomlData.filter_data_by_mutation` (data.py lines 170-194):
`expr_df.loc[mut_df.index, :]`. -/
def filter_data_by_mutation (expr_df : XFrame) (mut_df : YSeries) :
    Except String XFrame :=
  locRows expr_df (mut_df.map Prod.fst)

/-! ## scikit-learn's train_test_split, modelled from its documentation

`sklearn.model_selection.train_test_split` is an external collaborator.
It is modelled from its documented contract: inputs of equal length are
split into complementary train/test parts; with `stratify=y` the split is
performed separately inside every label class, preserving class
proportions, and fails when the least populated class has fewer than two
members; `random_state` seeds the shuffling, and when it is `None` the
ambient global randomness (`entropy` below) decides. -/

/-- The pseudo-random sort key the modelled shuffler gives position `i`
under seed `seed`. -/
def shuffleKey (seed i : Nat) : Nat :=
  ((seed + 1) * (i + 3) * 2654435761) % 4294967291

/-- A seed-determined permutation of a list of positions. -/
def seededShuffle (seed : Nat) (pos : List Nat) : List Nat :=
  List.insertionSort (fun i j => shuffleKey seed i ≤ shuffleKey seed j) pos

/-- The distinct label values, in order of appearance of their positions. -/
def classValues (labels : List Int) : List Int := labels.dedup

/-- The positions of `labels` holding class `c`. -/
def classPositions (labels : List Int) (c : Int) : List Nat :=
  (labels.enum.filter (fun p => p.2 == c)).map Prod.fst

/-- Number of test observations allocated to a class of `m` members:
the ceiling of `test_size * m`, computed on the reduced fraction. -/
def testCount (test_size : ℚ) (m : Nat) : Nat :=
  min m ((test_size.num.toNat * m + (test_size.den - 1)) / test_size.den)

/-- The set of positions the stratified shuffler sends to the test part. -/
def testPositionList (seed : Nat) (labels : List Int) (test_size : ℚ) : List Nat :=
  (classValues labels).flatMap (fun c =>
    let pos := classPositions labels c
    (seededShuffle seed pos).take (testCount test_size pos.length))

/-- Select the elements of `l` whose position satisfies `flag`. -/
def selectBy {α : Type} (l : List α) (flag : Nat → Bool) : List α :=
  (l.enum.filter (fun p => flag p.1)).map Prod.snd

/-- `train_test_split(x, y, test_size=..., random_state=..., stratify=y)`
returning `x_train, x_test, y_train, y_test`. -/
def train_test_split (entropy : Nat) (x : XFrame) (y : YSeries)
    (test_size : ℚ) (random_state : Option Nat) :
    Except String (XFrame × XFrame × YSeries × YSeries) :=
  if x.length = y.length then
    let labels := y.map Prod.snd
    if (classValues labels).all (fun c => 2 ≤ labels.count c) then
      let seed := random_state.getD entropy
      let tpos := testPositionList seed labels test_size
      let flag := fun i => tpos.contains i
      .ok (selectBy x (fun i => !flag i), selectBy x flag,
           selectBy y (fun i => !flag i), selectBy y flag)
    else
      .error "ValueError: the least populated class in y has only 1 member"
  else
    .error "ValueError: found input variables with inconsistent numbers of samples"

/-! ## analysis.py -/

/-- The estimator handed to the orchestrator (the module-scope
`grid_search` of `cognoml.classifiers.logistic_regression`, a file that is
not among the reviewed sources), modelled in its fitted state.  An absent
capability (`fit`, `predict`, `decision_function`, `predict_proba`) makes
the corresponding attribute access raise `AttributeError`.
Modelled from the spec: the grid search scores candidate models by
cross-validated AUROC, records the best score in `best_score_` and the
search trace in `cv_results_`, and exposes estimator metadata. -/
structure Pipeline where
  hasFit : Bool
  predictFn : Option (Features → Int)
  decisionFn : Option (Features → ℚ)
  probaFn : Option (Features → ℚ)
  best_score : ℚ
  cv_scores : List ℚ
  modelDescription : String

/-- `CognomlClassifier` (analysis.py lines 9-38): the state after
`__init__`.  `self.y = y.values` is only a projection of `obs_df` and is
not stored separately. -/
structure CognomlClassifier where
  X : XFrame
  obs_df : YSeries
  pipeline : Pipeline
  test_size : ℚ
  json_sanitize : Bool
  x_train : XFrame
  x_test : XFrame
  y_train : YSeries
  y_test : YSeries

/-- `CognomlClassifier.test_train_split` (analysis.py lines 40-46):
delegates to `train_test_split` with `random_state=0, stratify=y`.
`entropy` is the ambient randomness that `random_state=None` would
consume. -/
def CognomlClassifier.test_train_split (c : CognomlClassifier) (entropy : Nat) :
    Except String (XFrame × XFrame × YSeries × YSeries) :=
  train_test_split entropy c.X c.obs_df c.test_size (some 0)

/-- `CognomlClassifier.__init__`: stores the arguments and the result of
`test_train_split()`; a split failure propagates out of the constructor. -/
def CognomlClassifier.make (entropy : Nat) (X : XFrame) (y : YSeries)
    (pipeline : Pipeline) (test_size : ℚ) (json_sanitize : Bool) :
    Except String CognomlClassifier :=
  match train_test_split entropy X y test_size (some 0) with
  | .error e => .error e
  | .ok (xtr, xte, ytr, yte) =>
      .ok { X := X, obs_df := y, pipeline := pipeline, test_size := test_size,
            json_sanitize := json_sanitize,
            x_train := xtr, x_test := xte, y_train := ytr, y_test := yte }

/-- `CognomlClassifier.fit` (analysis.py lines 49-53): calls
`pipeline.fit(X=x_train, y=y_train)` with no exception handling, so a
missing `fit` attribute raises to the caller; the training side effect
lives inside the (externally modelled) pipeline. -/
def CognomlClassifier.fit (c : CognomlClassifier) : Except String Unit :=
  if c.pipeline.hasFit then .ok ()
  else .error "AttributeError: the estimator object has no attribute fit"

/-- The frame returned by `CognomlClassifier.predict`: a `sample_id` and
`predicted_status` column, and the optional `predicted_score` /
`predicted_prob` columns. -/
structure PredictFrame where
  rows : List (SampleId × Int)
  score : Option (List ℚ)
  prob : Option (List ℚ)

/-- `CognomlClassifier.predict` (analysis.py lines 55-63): predicts over
the whole of `self.X`; attaches `predicted_score` exactly when the
pipeline has `decision_function` and `predicted_prob` exactly when it has
`predict_proba` (column `[:, 1]`). -/
def CognomlClassifier.predict (c : CognomlClassifier) : Except String PredictFrame :=
  match c.pipeline.predictFn with
  | none => .error "AttributeError: the estimator object has no attribute predict"
  | some f =>
      .ok { rows := c.X.map (fun r => (r.1, f r.2)),
            score := c.pipeline.decisionFn.map (fun g => c.X.map (fun r => g r.2)),
            prob := c.pipeline.probaFn.map (fun g => c.X.map (fun r => g r.2)) }

/-- One row of the predictions frame, as seen by the merge. -/
structure PredRow where
  sample_id : SampleId
  predicted_status : Int
  predicted_score : Option ℚ
  predicted_prob : Option ℚ

/-- Rows of a `PredictFrame`; the optional columns are aligned by position. -/
def PredictFrame.toRows (pf : PredictFrame) : List PredRow :=
  pf.rows.enum.map (fun p =>
    { sample_id := p.2.1, predicted_status := p.2.2,
      predicted_score := pf.score.bind (fun col => col[p.1]?),
      predicted_prob := pf.prob.bind (fun col => col[p.1]?) })

/-- A row of `obs_df.merge(predict_df, how='right', sort=True)` before the
sentinel fill: the columns coming from the left frame are nullable. -/
structure MergedRow where
  sample_id : SampleId
  status : Option Int
  testing : Option Int
  predicted_status : Int
  predicted_score : Option ℚ
  predicted_prob : Option ℚ

/-- pandas `left.merge(right, how='right', sort=True)` on the common
`sample_id` column, where `left` carries `(sample_id, status, testing)`:
the output has one block per right row (sorted by the join key), with all
matching left rows joined in, or a single row with null left columns when
the key is absent from the left frame. -/
def mergeRightOnSampleId (obs : List (SampleId × Int × Int)) (pred : List PredRow) :
    List MergedRow :=
  let sorted := List.insertionSort (fun p q : PredRow => p.sample_id ≤ q.sample_id) pred
  sorted.flatMap (fun p =>
    let ms := obs.filter (fun o => o.1 == p.sample_id)
    if ms.isEmpty then
      [{ sample_id := p.sample_id, status := none, testing := none,
         predicted_status := p.predicted_status,
         predicted_score := p.predicted_score, predicted_prob := p.predicted_prob }]
    else
      ms.map (fun o =>
        { sample_id := p.sample_id, status := some o.2.1, testing := some o.2.2,
          predicted_status := p.predicted_status,
          predicted_score := p.predicted_score, predicted_prob := p.predicted_prob }))

/-- One row of the final observations table of the report. -/
structure ObsRow where
  sample_id : SampleId
  status : Int
  testing : Int
  selected : Int
  predicted_status : Int
  predicted_score : Option ℚ
  predicted_prob : Option ℚ
deriving Repr, DecidableEq

/-- The `selected` column assignment followed by
`fillna(-1).astype(int)` over `status`, `testing`, `selected`: the
`selected` value is integer from the start in both call sites, so only
`status` and `testing` can receive the sentinel. -/
def fillObs (selectedOf : MergedRow → Int) (merged : List MergedRow) : List ObsRow :=
  merged.map (fun m =>
    { sample_id := m.sample_id,
      status := m.status.getD (-1),
      testing := m.testing.getD (-1),
      selected := selectedOf m,
      predicted_status := m.predicted_status,
      predicted_score := m.predicted_score,
      predicted_prob := m.predicted_prob })

/-- Modelled from the spec: `utils.class_metrics` (cognoml/utils.py is not
among the reviewed sources).  The spec calls these class-count-based
classification metrics; the counts of the four outcome classes over
`(status, predicted_status)` pairs. -/
structure ClassMetrics where
  true_positives : Nat
  false_positives : Nat
  true_negatives : Nat
  false_negatives : Nat
deriving Repr, DecidableEq

/-- Modelled from the spec: the class-count computation of
`utils.class_metrics`. -/
def class_metrics (pairs : List (Int × Int)) : ClassMetrics :=
  { true_positives := pairs.countP (fun p => p.1 == 1 && p.2 == 1),
    false_positives := pairs.countP (fun p => !(p.1 == 1) && p.2 == 1),
    true_negatives := pairs.countP (fun p => !(p.1 == 1) && !(p.2 == 1)),
    false_negatives := pairs.countP (fun p => p.1 == 1 && !(p.2 == 1)) }

/-- Modelled from the spec: one point of the threshold sweep of
`utils.threshold_metrics`. -/
structure ThresholdPoint where
  threshold : Int
  predicted_positive : Nat
deriving Repr, DecidableEq

/-- Modelled from the spec: `utils.threshold_metrics` (cognoml/utils.py is
not among the reviewed sources): a sweep over the distinct predicted
values. -/
def threshold_metrics (pairs : List (Int × Int)) : List ThresholdPoint :=
  (pairs.map Prod.snd).dedup.map (fun t =>
    { threshold := t, predicted_positive := pairs.countP (fun p => decide (t ≤ p.2)) })

/-- The per-split entry of the performance report: the class-count metrics
updated with the threshold-sweep metrics. -/
structure PartMetrics where
  counts : ClassMetrics
  sweep : List ThresholdPoint
deriving Repr, DecidableEq

/-- `results['performance']`. -/
structure Performance where
  training : PartMetrics
  testing : PartMetrics
  cv_auroc : ℚ

/-- `results['grid_search']`; `utils.cv_results_to_df` (not among the
reviewed sources) is modelled from the spec as the recorded search trace. -/
structure GridSearchReport where
  cv_scores : List ℚ

/-- `results['model']`; `utils.model_info` and `utils.get_feature_df` (not
among the reviewed sources) are modelled from the spec as estimator
metadata plus the feature list. -/
structure ModelReport where
  description : String
  features : List Nat

/-- `results['dimensions']`. -/
structure Dimensions where
  observations_selected : Nat
  observations_unselected : Nat
  features : Nat
  positives : Nat
  negatives : Nat
  positive_prevalence : ℚ
  training_observations : Nat
  testing_observations : Nat

/-- The report assembled by `get_results` / `classify`. -/
structure Results where
  dimensions : Dimensions
  performance : Performance
  grid_search : GridSearchReport
  model : ModelReport
  observations : List ObsRow

/-- `len(x.columns)`: the number of feature columns of a rectangular
frame, read off its first row. -/
def numColumns (x : XFrame) : Nat :=
  ((x.map (fun r => r.2.length)).headD 0)

/-- `obs_df.status.mean()`. -/
def statusMean (obs : List ObsRow) : ℚ :=
  ((obs.map (fun r => (r.status : ℚ))).sum) / (obs.length : ℚ)

/-- `y.mean()` over raw mutation statuses. -/
def intMean (l : List Int) : ℚ :=
  ((l.map (fun v => (v : ℚ))).sum) / (l.length : ℚ)

/-- The `dimensions` block shared by `get_results` and `classify`; the two
call sites differ only in the frame whose columns are counted and in the
series whose mean is the prevalence, so both are passed in. -/
def mkDimensions (obs : List ObsRow) (nFeatures : Nat) (prevalence : ℚ) : Dimensions :=
  { observations_selected := obs.countP (fun r => r.selected == 1),
    observations_unselected := obs.countP (fun r => r.selected == 0),
    features := nFeatures,
    positives := obs.countP (fun r => r.status == 1),
    negatives := obs.countP (fun r => r.status == 0),
    positive_prevalence := prevalence,
    training_observations := (obs.filter (fun r => r.testing == 0)).length,
    testing_observations := (obs.filter (fun r => r.testing == 1)).length }

/-- The `(status, predicted_status)` pairs of a split of the observations. -/
def pairsOf (df : List ObsRow) : List (Int × Int) :=
  df.map (fun r => (r.status, r.predicted_status))

/-- The `performance`/`grid_search`/`model` blocks shared verbatim by
`get_results` and `classify`. -/
def mkReportTail (p : Pipeline) (obs : List ObsRow) (nFeatures : Nat) :
    Performance × GridSearchReport × ModelReport :=
  let obs_train := obs.filter (fun r => r.testing == 0)
  let obs_test := obs.filter (fun r => r.testing == 1)
  ({ training := { counts := class_metrics (pairsOf obs_train),
                   sweep := threshold_metrics (pairsOf obs_train) },
     testing := { counts := class_metrics (pairsOf obs_test),
                  sweep := threshold_metrics (pairsOf obs_test) },
     cv_auroc := p.best_score },
   { cv_scores := p.cv_scores },
   { description := p.modelDescription, features := List.range nFeatures })

/-- `utils.make_json_serializable` (cognoml/utils.py is not among the
reviewed sources).  Modelled from the spec: it converts tabular values
into nested plain-mapping structures for JSON encoding; the embedded
report already is plain data, so the conversion carries every field over
unchanged. -/
def make_json_serializable (r : Results) : Results := r

/-- `CognomlClassifier.get_results` (analysis.py lines 65-110). -/
def CognomlClassifier.get_results (c : CognomlClassifier) : Except String Results :=
  match c.predict with
  | .error e => .error e
  | .ok pf =>
      let obs1 : List (SampleId × Int × Int) :=
        c.obs_df.map (fun o => (o.1, o.2, isinInt o.1 (c.x_test.map Prod.fst)))
      let merged := mergeRightOnSampleId obs1 pf.toRows
      let ids := merged.map (fun m => m.sample_id)
      let obs := fillObs (fun m => isinInt m.sample_id ids) merged
      let tail := mkReportTail c.pipeline obs (numColumns c.X)
      let results : Results :=
        { dimensions := mkDimensions obs (numColumns c.X) (statusMean obs),
          performance := tail.1,
          grid_search := tail.2.1,
          model := tail.2.2,
          observations := obs }
      .ok (if c.json_sanitize then make_json_serializable results else results)

/-- `classify` (analysis.py lines 113-207).  The referenced name
`read_data` is unbound in analysis.py; Modelled from the spec:
`read_data` resolves the full expression table of the requested data
version, and it is passed in here, as is the module-scope `grid_search`
estimator (its defining module is not among the reviewed sources). -/
def classify (entropy : Nat) (read_data : Nat → XFrame) (grid_search : Pipeline)
    (sample_id : List SampleId) (mutation_status : List Int) (data_version : Nat)
    (json_sanitize : Bool) : Except String Results :=
  if sample_id.length = mutation_status.length then
    let obs_df := sample_id.zip mutation_status
    let X_whole := read_data data_version
    match locRows X_whole sample_id with
    | .error e => .error e
    | .ok X =>
        match train_test_split entropy X obs_df (mkRat 1 10) (some 0) with
        | .error e => .error e
        | .ok (_X_train, X_test, _y_train, _y_test) =>
            let obs1 : List (SampleId × Int × Int) :=
              obs_df.map (fun o => (o.1, o.2, isinInt o.1 (X_test.map Prod.fst)))
            if grid_search.hasFit then
              match grid_search.predictFn with
              | none => .error "AttributeError: the estimator object has no attribute predict"
              | some f =>
                  let predict_df : PredictFrame :=
                    { rows := X_whole.map (fun r => (r.1, f r.2)),
                      score := grid_search.decisionFn.map (fun g => X_whole.map (fun r => g r.2)),
                      prob := grid_search.probaFn.map (fun g => X_whole.map (fun r => g r.2)) }
                  let merged := mergeRightOnSampleId obs1 predict_df.toRows
                  let obs := fillObs (fun m => isinInt m.sample_id sample_id) merged
                  let tail := mkReportTail grid_search obs (numColumns X)
                  let results : Results :=
                    { dimensions := mkDimensions obs (numColumns X) (intMean mutation_status),
                      performance := tail.1,
                      grid_search := tail.2.1,
                      model := tail.2.2,
                      observations := obs }
                  .ok (if json_sanitize then make_json_serializable results else results)
            else .error "AttributeError: the estimator object has no attribute fit"
  else
    .error "ValueError: arrays must all be same length"

/-! ## Concrete instances used by witnesses and counterexamples -/

/-- Whether an `Except` computation succeeded. -/
def exceptIsOk {ε α : Type} (e : Except ε α) : Bool :=
  match e with
  | .ok _ => true
  | .error _ => false

/-- A concrete fitted decision rule: positive when the first feature
reaches 50. -/
def predictThreshold : Features → Int :=
  fun f => if 50 ≤ f.headD 0 then 1 else 0

/-- A minimal well-behaved estimator (fit and predict only). -/
def pBasic : Pipeline :=
  { hasFit := true, predictFn := some predictThreshold,
    decisionFn := none, probaFn := none,
    best_score := mkRat 1 2, cv_scores := [mkRat 1 2],
    modelDescription := "grid search over a logistic-regression pipeline" }

/-- An object with neither `fit` nor `predict`. -/
def pNoCap : Pipeline :=
  { hasFit := false, predictFn := none, decisionFn := none, probaFn := none,
    best_score := mkRat 1 2, cv_scores := [],
    modelDescription := "object without estimator capabilities" }

/-- An estimator that also exposes `decision_function` but no
`predict_proba`. -/
def pFull : Pipeline :=
  { hasFit := true, predictFn := some predictThreshold,
    decisionFn := some (fun _ => mkRat 1 2), probaFn := none,
    best_score := mkRat 1 2, cv_scores := [mkRat 1 2],
    modelDescription := "grid search over a logistic-regression pipeline" }

/-- Four expression rows, sample ids 1-4. -/
def X4 : XFrame := [(1, [10]), (2, [20]), (3, [60]), (4, [70])]

/-- Labels for ids 1, 2, 3 and 9; id 4 of `X4` is unlabeled and id 9 has
no expression row. -/
def y4 : YSeries := [(1, 0), (2, 0), (3, 1), (9, 1)]

/-- The classifier `CognomlClassifier(X4, y4, pBasic)` constructs (the
stored split is the one `test_train_split` returns on these inputs). -/
def c2c : CognomlClassifier :=
  { X := X4, obs_df := y4, pipeline := pBasic, test_size := mkRat 1 10,
    json_sanitize := true,
    x_train := [(1, [10]), (4, [70])], x_test := [(2, [20]), (3, [60])],
    y_train := [(1, 0), (9, 1)], y_test := [(2, 0), (3, 1)] }

/-- A placeholder report, used only as the `error` fallback of the
extractors below. -/
def emptyResults : Results :=
  { dimensions := mkDimensions [] 0 0,
    performance :=
      { training := { counts := class_metrics [], sweep := threshold_metrics [] },
        testing := { counts := class_metrics [], sweep := threshold_metrics [] },
        cv_auroc := 0 },
    grid_search := { cv_scores := [] },
    model := { description := "", features := [] },
    observations := [] }

/-- The report of the `c2c` run. -/
def c2res : Results :=
  match c2c.get_results with
  | .ok r => r
  | .error _ => emptyResults

/-- A placeholder row used as the default of row extractors. -/
def obsDefault : ObsRow :=
  { sample_id := 0, status := 0, testing := 0, selected := 0,
    predicted_status := 0, predicted_score := none, predicted_prob := none }

/-- The observations row of the `c2c` run for the unlabeled sample 4. -/
def c2row : ObsRow :=
  (c2res.observations.filter (fun r => r.sample_id == 4)).headD obsDefault

/-- Six expression rows, sample ids 1-6. -/
def X6 : XFrame :=
  [(1, [10]), (2, [20]), (3, [60]), (4, [70]), (5, [80]), (6, [90])]

/-- A `classify` run over `X6` where only ids 1-4 carry labels. -/
def c2brun : Except String Results :=
  classify 0 (fun _ => X6) pBasic [1, 2, 3, 4] [0, 0, 1, 1] 7 false

/-- The report of the `classify` run `c2brun`. -/
def c2bres : Results :=
  match c2brun with
  | .ok r => r
  | .error _ => emptyResults

/-- The observations row of `c2brun` for the unlabeled sample 5. -/
def c2brow : ObsRow :=
  (c2bres.observations.filter (fun r => r.sample_id == 5)).headD obsDefault

/-- The estimator of the end-to-end scenario, with a concrete
cross-validated AUROC of 17/20. -/
def c9pipeline : Pipeline :=
  { hasFit := true, predictFn := some predictThreshold,
    decisionFn := none, probaFn := none,
    best_score := mkRat 17 20, cv_scores := [mkRat 17 20],
    modelDescription := "grid search over a logistic-regression pipeline" }

/-- The synthetic scenario's expression table: 100 samples, ids 0-99. -/
def X100 : XFrame := (List.range 100).map (fun i => (i, [(i : Int)]))

/-- The synthetic scenario's labels: ids 0-29 positive, 30-99 negative. -/
def y100 : YSeries :=
  (List.range 100).map (fun i => (i, if i < 30 then (1 : Int) else 0))

/-- The classifier of the synthetic 100-sample scenario. -/
def c9c : CognomlClassifier :=
  match CognomlClassifier.make 0 X100 y100 c9pipeline (mkRat 1 10) true with
  | .ok c => c
  | .error _ => c2c

/-- The report of the synthetic scenario. -/
def c9results : Except String Results := c9c.get_results

/-- The `dimensions` block of the synthetic scenario's report. -/
def c9dims : Dimensions :=
  match c9results with
  | .ok r => r.dimensions
  | .error _ => mkDimensions [] 0 0

/-- The cross-validation AUROC of the synthetic scenario's report. -/
def c9auroc : ℚ :=
  match c9results with
  | .ok r => r.performance.cv_auroc
  | .error _ => 0

/-- A concrete `CognomlData` state (version 4 resolved). -/
def d0 : CognomlData :=
  { directory := "download", version := "4",
    covariates_file := "covariates.tsv",
    expressions_file := "expression-matrix.tsv.bz2" }

/-- A filesystem holding only the raw covariates file of `d0`. -/
def fs0 : FS :=
  fun p => if p = "download/v4/covariates.tsv" then some "raw tsv bytes" else none

/-- A manifest with one wanted and one unwanted file. -/
def article0 : Article :=
  { files := [{ name := "covariates.tsv", download_url := "urlA" },
              { name := "extra.txt", download_url := "urlB" }] }

/-- A remote that serves fixed bytes for every URL. -/
def net0 : String → String := fun _ => "downloaded bytes"

/-- A one-row expression table for the filtering counterexample. -/
def e1 : XFrame := [(1, [5])]

/-- A label series whose only id, 2, has no expression row in `e1`. -/
def m1 : YSeries := [(2, 0)]

/-- A three-row expression table for the filtering witness. -/
def e2 : XFrame := [(1, [5]), (2, [6]), (3, [7])]

/-- A label series covered by `e2`, in an order of its own. -/
def m2 : YSeries := [(3, 1), (1, 0)]

/-- A classifier state carrying the capability-free object `pNoCap`. -/
def c3c : CognomlClassifier :=
  { X := [], obs_df := [], pipeline := pNoCap, test_size := mkRat 1 10,
    json_sanitize := true, x_train := [], x_test := [], y_train := [], y_test := [] }

/-- A classifier state carrying the score-capable estimator `pFull`. -/
def c4c : CognomlClassifier :=
  { X := X4, obs_df := y4, pipeline := pFull, test_size := mkRat 1 10,
    json_sanitize := true, x_train := [], x_test := [], y_train := [], y_test := [] }

/-! ## Helper lemmas -/

/-- A non-empty filter on the key column exhibits the key in the id column. -/
theorem filter_nonempty_mem {obs : List (SampleId × Int × Int)} {s : SampleId}
    (he : ¬(obs.filter (fun o => o.1 == s)).isEmpty = true) :
    s ∈ obs.map (fun o => o.1) := by
  rw [List.isEmpty_iff] at he
  cases hf : obs.filter (fun o => o.1 == s) with
  | nil => exact absurd hf he
  | cons a t =>
      have ha : a ∈ obs.filter (fun o => o.1 == s) := by
        rw [hf]; exact List.mem_cons_self a t
      have := List.mem_filter.mp ha
      simp only [List.mem_map]
      exact ⟨a, this.1, by simpa using this.2⟩

/-- Every row of the right join either carries null left columns and a key
unknown to the left frame, or a key known to the left frame. -/
theorem mem_mergeRight_elim {obs : List (SampleId × Int × Int)} {pred : List PredRow}
    {m : MergedRow} (hm : m ∈ mergeRightOnSampleId obs pred) :
    (m.status = none ∧ m.testing = none ∧ m.sample_id ∉ obs.map (fun o => o.1)) ∨
    (m.sample_id ∈ obs.map (fun o => o.1)) := by
  unfold mergeRightOnSampleId at hm
  simp only [List.mem_flatMap] at hm
  obtain ⟨p, hp, hmem⟩ := hm
  by_cases he : (obs.filter (fun o => o.1 == p.sample_id)).isEmpty
  · left
    simp [he] at hmem
    subst hmem
    refine ⟨rfl, rfl, ?_⟩
    intro hin
    rw [List.isEmpty_iff, List.filter_eq_nil_iff] at he
    simp only [List.mem_map] at hin
    obtain ⟨o, ho, hos⟩ := hin
    exact absurd (by simpa using hos) (he o ho)
  · right
    simp only [he, Bool.false_eq_true, if_false, List.mem_map] at hmem
    obtain ⟨o, ho, heq⟩ := hmem
    have hms : m.sample_id = p.sample_id := by rw [← heq]
    rw [hms]
    exact filter_nonempty_mem he

/-- Rows of the sentinel-filled table come from merged rows, field by field. -/
theorem mem_fillObs {sel : MergedRow → Int} {merged : List MergedRow} {r : ObsRow}
    (hr : r ∈ fillObs sel merged) :
    ∃ m ∈ merged, r.sample_id = m.sample_id ∧ r.status = m.status.getD (-1) ∧
      r.testing = m.testing.getD (-1) ∧ r.selected = sel m := by
  unfold fillObs at hr
  simp only [List.mem_map] at hr
  obtain ⟨m, hm, rfl⟩ := hr
  exact ⟨m, hm, rfl, rfl, rfl, rfl⟩

/-- `isin` of a member is 1. -/
theorem isinInt_eq_one {a : SampleId} {l : List SampleId} (h : a ∈ l) :
    isinInt a l = 1 := by
  simp [isinInt, List.elem_iff, h]

/-- `isin` of a non-member is 0. -/
theorem isinInt_eq_zero {a : SampleId} {l : List SampleId} (h : a ∉ l) :
    isinInt a l = 0 := by
  simp [isinInt, List.elem_iff, h]

/-- A successful `get_results` call: the report's observations are the
sentinel-filled right join, with the self-membership `selected` column,
and the dimensions are computed from them. -/
theorem get_results_ok {c : CognomlClassifier} {r : Results}
    (h : c.get_results = .ok r) :
    ∃ pf, c.predict = .ok pf ∧
      r.observations = fillObs (fun m => isinInt m.sample_id
          ((mergeRightOnSampleId
            (c.obs_df.map (fun o => (o.1, o.2, isinInt o.1 (c.x_test.map Prod.fst)))) pf.toRows).map
            (fun m2 => m2.sample_id)))
        (mergeRightOnSampleId
          (c.obs_df.map (fun o => (o.1, o.2, isinInt o.1 (c.x_test.map Prod.fst)))) pf.toRows) ∧
      r.dimensions = mkDimensions r.observations (numColumns c.X) (statusMean r.observations) := by
  unfold CognomlClassifier.get_results at h
  cases hp : c.predict with
  | error e => rw [hp] at h; simp at h
  | ok pf =>
      rw [hp] at h
      simp only [make_json_serializable, ite_self, Except.ok.injEq] at h
      subst h
      exact ⟨pf, rfl, rfl, rfl⟩

/-- The rows the splitter keeps and the rows it holds out recombine to a
permutation of the input. -/
theorem selectBy_not_append_perm {α : Type} (l : List α) (flag : Nat → Bool) :
    List.Perm (selectBy l (fun i => !flag i) ++ selectBy l flag) l := by
  unfold selectBy
  have h1 : List.Perm
      (l.enum.filter (fun p => !flag p.1) ++ l.enum.filter (fun p => flag p.1)) l.enum := by
    have h2 := List.filter_append_perm (fun p : Nat × α => flag p.1) l.enum
    have h3 : List.Perm
        (l.enum.filter (fun p : Nat × α => !flag p.1) ++ l.enum.filter (fun p : Nat × α => flag p.1))
        (l.enum.filter (fun p : Nat × α => flag p.1) ++ l.enum.filter (fun p : Nat × α => !flag p.1)) :=
      List.perm_append_comm
    exact h3.trans h2
  have h4 := h1.map Prod.snd
  rw [List.map_append] at h4
  rw [List.enum_map_snd] at h4
  exact h4

/-- An id selected under `flag` sits at a position satisfying `flag`. -/
theorem mem_selectBy_ids (l : XFrame) (flag : Nat → Bool) (s : SampleId)
    (hs : s ∈ (selectBy l flag).map Prod.fst) :
    ∃ i, flag i = true ∧ (l.map Prod.fst)[i]? = some s := by
  unfold selectBy at hs
  simp only [List.map_map, List.mem_map, List.mem_filter] at hs
  obtain ⟨p, ⟨hpe, hpf⟩, hps⟩ := hs
  refine ⟨p.1, hpf, ?_⟩
  have : l[p.1]? = some p.2 := by
    rw [← List.mk_mem_enum_iff_getElem?]
    exact hpe
  rw [List.getElem?_map, this]
  simpa using hps

/-- A successful `train_test_split` call is a flag-based selection: the
test rows are the flagged positions, the train rows the others, in both
`x` and `y`. -/
theorem train_test_split_ok {entropy : Nat} {x : XFrame} {y : YSeries} {ts : ℚ}
    {rs : Option Nat} {xtr xte : XFrame} {ytr yte : YSeries}
    (h : train_test_split entropy x y ts rs = .ok (xtr, xte, ytr, yte)) :
    ∃ flag : Nat → Bool,
      xtr = selectBy x (fun i => !flag i) ∧ xte = selectBy x flag ∧
      ytr = selectBy y (fun i => !flag i) ∧ yte = selectBy y flag := by
  unfold train_test_split at h
  by_cases hl : x.length = y.length
  · rw [if_pos hl] at h
    by_cases hc : (classValues (y.map Prod.snd)).all (fun c => 2 ≤ (y.map Prod.snd).count c)
    · rw [if_pos hc] at h
      simp only [Except.ok.injEq, Prod.mk.injEq] at h
      obtain ⟨h1, h2, h3, h4⟩ := h
      exact ⟨fun i => (testPositionList (rs.getD entropy) (y.map Prod.snd) ts).contains i,
        h1.symm, h2.symm, h3.symm, h4.symm⟩
    · rw [if_neg hc] at h; simp at h
  · rw [if_neg hl] at h; simp at h

/-- Filtering a duplicate-free frame on one present key yields that key
alone. -/
theorem filter_beq_map_fst {expr : XFrame} {l : SampleId}
    (hnod : (expr.map Prod.fst).Nodup) (hl : l ∈ expr.map Prod.fst) :
    (expr.filter (fun r => r.1 == l)).map Prod.fst = [l] := by
  induction expr with
  | nil => simp at hl
  | cons a t ih =>
      simp only [List.map_cons, List.nodup_cons] at hnod
      by_cases ha : a.1 = l
      · have hnotin : t.filter (fun r => r.1 == l) = [] := by
          rw [List.filter_eq_nil_iff]
          intro r hr
          simp only [beq_iff_eq]
          intro hrl
          exact hnod.1 (by rw [ha, ← hrl]; exact List.mem_map_of_mem Prod.fst hr)
        rw [List.filter_cons_of_pos (by simpa using ha), hnotin]
        simp [ha]
      · rw [List.filter_cons_of_neg (by simpa using ha)]
        apply ih hnod.2
        simp only [List.mem_map] at hl ⊢
        obtain ⟨r, hr, hrl⟩ := hl
        cases hr with
        | head => exact absurd hrl ha
        | tail _ hmem => exact ⟨r, hmem, hrl⟩

/-- `loc` with fully covered labels succeeds with the joined row blocks. -/
theorem locRows_ok_of_sub {rows : XFrame} {labels : List SampleId}
    (hsub : ∀ l ∈ labels, l ∈ rows.map Prod.fst) :
    locRows rows labels = .ok (labels.flatMap (fun l => rows.filter (fun r => r.1 == l))) := by
  unfold locRows
  rw [if_pos]
  rw [List.all_eq_true]
  intro l hl
  rw [List.any_eq_true]
  have := hsub l hl
  simp only [List.mem_map] at this
  obtain ⟨r, hr, hrl⟩ := this
  exact ⟨r, hr, by simpa using hrl⟩

/-- `loc` with a label missing from the index raises `KeyError`. -/
theorem locRows_error_of_missing {rows : XFrame} {labels : List SampleId}
    (hmiss : ∃ l ∈ labels, l ∉ rows.map Prod.fst) :
    locRows rows labels = .error "KeyError: a requested sample_id is absent from the index" := by
  unfold locRows
  rw [if_neg]
  intro hall
  rw [List.all_eq_true] at hall
  obtain ⟨l, hl, hnot⟩ := hmiss
  have := hall l hl
  rw [List.any_eq_true] at this
  obtain ⟨r, hr, hrl⟩ := this
  apply hnot
  have hr1 : r.1 = l := by simpa using hrl
  rw [← hr1]
  exact List.mem_map_of_mem Prod.fst hr

/-- Looking up a name outside the pickle dictionary fails. -/
theorem lookup_pickle_none {files : List String} {t : String} (h : t ∉ files) :
    (files.map (fun f => (f, f ++ "_pickle"))).lookup t = none := by
  induction files with
  | nil => rfl
  | cons a rest ih =>
      simp only [List.mem_cons, not_or] at h
      have hba : (t == a) = false := by simpa using h.1
      simp only [List.map_cons, List.lookup_cons, hba]
      exact ih h.2

/-- Looking up a data-file name in the pickle dictionary appends the
pickle suffix. -/
theorem lookup_pickle_some {files : List String} {t : String} (h : t ∈ files) :
    (files.map (fun f => (f, f ++ "_pickle"))).lookup t = some (t ++ "_pickle") := by
  induction files with
  | nil => simp at h
  | cons a rest ih =>
      by_cases hat : t = a
      · simp [hat]
      · have hba : (t == a) = false := by simpa using hat
        simp only [List.map_cons, List.lookup_cons, hba]
        cases h with
        | head => exact absurd rfl hat
        | tail _ hmem => exact ih hmem

/-- The download loop never touches a path that already exists. -/
theorem downloadLoop_keeps (net : String → String) (d : CognomlData)
    (files : List FileInfo) (fs : FS) (p : String) (cont : String)
    (h : fs p = some cont) : downloadLoop net d fs files p = some cont := by
  induction files generalizing fs with
  | nil => exact h
  | cons fi rest ih =>
      unfold downloadLoop
      by_cases hc : fi.name ∈ d.files_to_download ∧ fs (pathJoin d.download_path fi.name) = none
      · simp only [if_pos hc]
        apply ih
        unfold fsWrite
        by_cases hpp : p = pathJoin d.download_path fi.name
        · rw [hpp] at h; rw [h] at hc; exact Option.noConfusion hc.2
        · rw [if_neg hpp]; exact h
      · simp only [if_neg hc]
        exact ih fs h

/-- A path the download loop changed was absent before the loop and is
the target path of a wanted manifest entry. -/
theorem downloadLoop_writes_only_absent (net : String → String) (d : CognomlData)
    (files : List FileInfo) (fs : FS) (p : String)
    (h : downloadLoop net d fs files p ≠ fs p) :
    fs p = none ∧ ∃ fi ∈ files, fi.name ∈ d.files_to_download ∧
      p = pathJoin d.download_path fi.name := by
  induction files generalizing fs with
  | nil => exact absurd rfl h
  | cons fi rest ih =>
      unfold downloadLoop at h
      by_cases hc : fi.name ∈ d.files_to_download ∧ fs (pathJoin d.download_path fi.name) = none
      · simp only [if_pos hc] at h
        by_cases hpp : p = pathJoin d.download_path fi.name
        · exact ⟨by rw [hpp]; exact hc.2, fi, List.mem_cons_self fi rest, hc.1, hpp⟩
        · have hfw : fsWrite fs (pathJoin d.download_path fi.name) (net fi.download_url) p = fs p := by
            unfold fsWrite
            rw [if_neg hpp]
          by_cases hrest : downloadLoop net d
              (fsWrite fs (pathJoin d.download_path fi.name) (net fi.download_url)) rest p =
              fsWrite fs (pathJoin d.download_path fi.name) (net fi.download_url) p
          · rw [hrest, hfw] at h
            exact absurd rfl h
          · obtain ⟨h1, fj, hj, hjn, hjp⟩ := ih _ hrest
            rw [hfw] at h1
            exact ⟨h1, fj, List.mem_cons_of_mem fi hj, hjn, hjp⟩
      · simp only [if_neg hc] at h
        obtain ⟨h1, fj, hj, hjn, hjp⟩ := ih fs h
        exact ⟨h1, fj, List.mem_cons_of_mem fi hj, hjn, hjp⟩

/-- Joining distinct final components onto one directory gives distinct
paths. -/
theorem pathJoin_inj {a b c : String} (h : pathJoin a b = pathJoin a c) : b = c := by
  unfold pathJoin at h
  have hd : (a ++ "/" ++ b).data = (a ++ "/" ++ c).data := by rw [h]
  simp only [String.data_append] at hd
  have h2 := List.append_cancel_left hd
  exact String.ext h2

/-- A successful `classify` call: the observations are the sentinel-filled
right join, with `selected` the membership test against the submitted
sample ids, and the joined label frame only carries submitted ids. -/
theorem classify_ok {entropy : Nat} {read_data : Nat → XFrame} {grid_search : Pipeline}
    {sample_id : List SampleId} {mutation_status : List Int} {data_version : Nat}
    {json_sanitize : Bool} {r : Results}
    (h : classify entropy read_data grid_search sample_id mutation_status data_version
          json_sanitize = .ok r) :
    ∃ obs1 pred, (∀ a ∈ obs1.map (fun o : SampleId × Int × Int => o.1), a ∈ sample_id) ∧
      r.observations =
        fillObs (fun m => isinInt m.sample_id sample_id) (mergeRightOnSampleId obs1 pred) := by
  unfold classify at h
  by_cases hl : sample_id.length = mutation_status.length
  · rw [if_pos hl] at h
    simp only [] at h
    cases hloc : locRows (read_data data_version) sample_id with
    | error e2 => rw [hloc] at h; exact Except.noConfusion h
    | ok X =>
        rw [hloc] at h
        simp only [] at h
        cases hsp : train_test_split entropy X (sample_id.zip mutation_status) (mkRat 1 10) (some 0) with
        | error e2 => rw [hsp] at h; exact Except.noConfusion h
        | ok q =>
            obtain ⟨xtr, xte, ytr, yte⟩ := q
            rw [hsp] at h
            simp only [] at h
            by_cases hfit : grid_search.hasFit
            · rw [if_pos hfit] at h
              cases hpr : grid_search.predictFn with
              | none => rw [hpr] at h; exact Except.noConfusion h
              | some f =>
                  rw [hpr] at h
                  simp only [make_json_serializable, ite_self, Except.ok.injEq] at h
                  subst h
                  refine ⟨_, _, ?_, rfl⟩
                  intro a ha
                  simp only [List.map_map, List.mem_map] at ha
                  obtain ⟨o, ho, hoa⟩ := ha
                  have : o.1 = a := by simpa using hoa
                  rw [← this]
                  exact (List.of_mem_zip ho).1
            · rw [if_neg hfit] at h; exact Except.noConfusion h
  · rw [if_neg hl] at h; exact Except.noConfusion h

/-! ## Claim C1 -/

/-- Claim C1 counterexample: for `e1` (one row, id 1) and `m1` (one label,
id 2), `filter_data_by_mutation` does not return a table whose index is
the intersection of the two indices — it raises `KeyError`, so the label
id absent from the expression table is not "simply not present in the
result". -/
theorem C1_counterexample :
    filter_data_by_mutation e1 m1 =
      .error "KeyError: a requested sample_id is absent from the index" ∧
    ¬ ∃ t, filter_data_by_mutation e1 m1 = .ok t ∧
        (t.map Prod.fst).toFinset =
          (e1.map Prod.fst).toFinset ∩ (m1.map Prod.fst).toFinset := by
  have h1 : filter_data_by_mutation e1 m1 =
      .error "KeyError: a requested sample_id is absent from the index" := rfl
  refine ⟨h1, ?_⟩
  rintro ⟨t, ht, _⟩
  rw [h1] at ht
  exact Except.noConfusion ht

/-- Claim C1, amended: when the indices are duplicate-free and every
label id has an expression row, `filter_data_by_mutation` returns the
rows indexed exactly by the label index — equal, as a set, to
`E.index ∩ L.index`, with no duplicates introduced; but when some label
id is absent from the expression index the call raises `KeyError` instead
of silently dropping it. -/
theorem C1_filter_index_amended (expr_df : XFrame) (mut_df : YSeries) :
    ((expr_df.map Prod.fst).Nodup →
      (∀ s ∈ mut_df.map Prod.fst, s ∈ expr_df.map Prod.fst) →
      ∃ t, filter_data_by_mutation expr_df mut_df = .ok t ∧
        t.map Prod.fst = mut_df.map Prod.fst ∧
        (t.map Prod.fst).toFinset =
          (expr_df.map Prod.fst).toFinset ∩ (mut_df.map Prod.fst).toFinset ∧
        ((mut_df.map Prod.fst).Nodup → (t.map Prod.fst).Nodup)) ∧
    ((∃ s ∈ mut_df.map Prod.fst, s ∉ expr_df.map Prod.fst) →
      filter_data_by_mutation expr_df mut_df =
        .error "KeyError: a requested sample_id is absent from the index") := by
  constructor
  · intro hnod hsub
    have hmap : ((mut_df.map Prod.fst).flatMap
        (fun l => expr_df.filter (fun r => r.1 == l))).map Prod.fst = mut_df.map Prod.fst := by
      rw [List.map_flatMap]
      have hone : ∀ l ∈ mut_df.map Prod.fst,
          (expr_df.filter (fun r => r.1 == l)).map Prod.fst = [l] :=
        fun l hl => filter_beq_map_fst hnod (hsub l hl)
      calc (mut_df.map Prod.fst).flatMap (fun l => (expr_df.filter (fun r => r.1 == l)).map Prod.fst)
          = (mut_df.map Prod.fst).flatMap (fun l => [l]) := List.flatMap_congr hone
        _ = mut_df.map Prod.fst := by simp
    refine ⟨_, locRows_ok_of_sub hsub, hmap, ?_, ?_⟩
    · rw [hmap]
      have hss : (mut_df.map Prod.fst).toFinset ⊆ (expr_df.map Prod.fst).toFinset := by
        intro a ha
        rw [List.mem_toFinset] at ha ⊢
        exact hsub a ha
      exact (Finset.inter_eq_right.mpr hss).symm
    · intro hnd
      rw [hmap]
      exact hnd
  · exact locRows_error_of_missing

/-- Witness for the amended C1 at the concrete tables `e2`, `m2`. -/
theorem C1_witness :
    (∀ s ∈ m2.map Prod.fst, s ∈ e2.map Prod.fst) ∧
    ∃ t, filter_data_by_mutation e2 m2 = .ok t ∧
      t.map Prod.fst = m2.map Prod.fst ∧
      (t.map Prod.fst).toFinset =
        (e2.map Prod.fst).toFinset ∩ (m2.map Prod.fst).toFinset ∧
      ((m2.map Prod.fst).Nodup → (t.map Prod.fst).Nodup) :=
  ⟨by decide, (C1_filter_index_amended e2 m2).1 (by decide) (by decide)⟩

/-! ## Claim C3 -/

/-- Claim C3 counterexample: on the classifier state `c3c`, whose
estimator has no `fit` capability, `CognomlClassifier.fit` does not log
and swallow the failure — the run does not continue: it raises the
`AttributeError` to the caller. -/
theorem C3_counterexample :
    c3c.pipeline.hasFit = false ∧
    c3c.fit = .error "AttributeError: the estimator object has no attribute fit" ∧
    c3c.fit ≠ .ok () := by
  refine ⟨rfl, rfl, ?_⟩
  intro h
  rw [show c3c.fit = Except.error "AttributeError: the estimator object has no attribute fit" from rfl] at h
  exact Except.noConfusion h

/-- Claim C3, amended: `CognomlClassifier.fit` has no exception handling
at all — a missing fit capability raises to the caller exactly as a
missing predict capability does in `predict`; with the capability present
each call succeeds. -/
theorem C3_fit_predict_raise_amended (c : CognomlClassifier) :
    (c.pipeline.hasFit = false →
      c.fit = .error "AttributeError: the estimator object has no attribute fit") ∧
    (c.pipeline.hasFit = true → c.fit = .ok ()) ∧
    (c.pipeline.predictFn = none →
      c.predict = .error "AttributeError: the estimator object has no attribute predict") ∧
    (∀ f : Features → Int, c.pipeline.predictFn = some f →
      c.predict = .ok { rows := c.X.map (fun r => (r.1, f r.2)),
                        score := c.pipeline.decisionFn.map (fun g => c.X.map (fun r => g r.2)),
                        prob := c.pipeline.probaFn.map (fun g => c.X.map (fun r => g r.2)) }) := by
  refine ⟨fun h => ?_, fun h => ?_, fun h => ?_, fun f h => ?_⟩
  · simp [CognomlClassifier.fit, h]
  · simp [CognomlClassifier.fit, h]
  · simp [CognomlClassifier.predict, h]
  · simp [CognomlClassifier.predict, h]

/-- Witness for the amended C3 at the capability-free state `c3c`. -/
theorem C3_witness :
    c3c.fit = .error "AttributeError: the estimator object has no attribute fit" ∧
    c3c.predict = .error "AttributeError: the estimator object has no attribute predict" :=
  ⟨(C3_fit_predict_raise_amended c3c).1 rfl,
   (C3_fit_predict_raise_amended c3c).2.2.1 rfl⟩

/-! ## Claim C4 -/

/-- Claim C4: `CognomlClassifier.predict` scores every row of the full
feature table `X` — the output ids are exactly `X`'s ids, with one
predicted status per row — and the optional columns are present exactly
when the estimator has the corresponding capability. -/
theorem C4_predict_full_table (c : CognomlClassifier) (f : Features → Int)
    (h : c.pipeline.predictFn = some f) :
    ∃ pf, c.predict = .ok pf ∧
      pf.rows.map Prod.fst = c.X.map Prod.fst ∧
      pf.rows = c.X.map (fun r => (r.1, f r.2)) ∧
      (pf.score.isSome ↔ c.pipeline.decisionFn.isSome) ∧
      (pf.prob.isSome ↔ c.pipeline.probaFn.isSome) := by
  refine ⟨{ rows := c.X.map (fun r => (r.1, f r.2)),
            score := c.pipeline.decisionFn.map (fun g => c.X.map (fun r => g r.2)),
            prob := c.pipeline.probaFn.map (fun g => c.X.map (fun r => g r.2)) },
    ?_, ?_, rfl, ?_, ?_⟩
  · simp [CognomlClassifier.predict, h]
  · rw [List.map_map]; rfl
  · simp
  · simp

/-- Witness for C4 at `c4c`, whose estimator has `decision_function`
but no `predict_proba`. -/
theorem C4_witness :
    c4c.pipeline.predictFn = some predictThreshold ∧
    ∃ pf, c4c.predict = .ok pf ∧
      pf.rows.map Prod.fst = c4c.X.map Prod.fst ∧
      pf.rows = c4c.X.map (fun r => (r.1, predictThreshold r.2)) ∧
      (pf.score.isSome ↔ c4c.pipeline.decisionFn.isSome) ∧
      (pf.prob.isSome ↔ c4c.pipeline.probaFn.isSome) :=
  ⟨rfl, C4_predict_full_table c4c predictThreshold rfl⟩

/-! ## Claim C8 -/

/-- Claim C8: the classifier's split is deterministic — since the code
pins `random_state=0`, `test_train_split` does not read the ambient
randomness, and two invocations on the same classifier state return
identical train/test partitions whatever the ambient entropy was. -/
theorem C8_split_deterministic (c : CognomlClassifier) (e1 e2 : Nat) :
    c.test_train_split e1 = c.test_train_split e2 := rfl

/-! ## Claim C10 -/

/-- Claim C10: because `get_results` computes `selected` as
`obs_df['sample_id'].isin(obs_df['sample_id'])` — a column tested against
itself — every row of every report built through `CognomlClassifier` has
`selected = 1`, and `dimensions['observations_unselected']` is 0. -/
theorem C10_selected_constant (c : CognomlClassifier) (r : Results)
    (h : c.get_results = .ok r) :
    (∀ row ∈ r.observations, row.selected = 1) ∧
    r.dimensions.observations_unselected = 0 := by
  obtain ⟨pf, hp, hobs, hdims⟩ := get_results_ok h
  have hsel : ∀ row ∈ r.observations, row.selected = 1 := by
    intro row hrow
    rw [hobs] at hrow
    obtain ⟨m, hm, hid, _, _, hs⟩ := mem_fillObs hrow
    rw [hs]
    exact isinInt_eq_one (List.mem_map_of_mem (fun m2 => m2.sample_id) hm)
  refine ⟨hsel, ?_⟩
  rw [hdims]
  unfold mkDimensions
  rw [List.countP_eq_zero]
  intro row hrow
  have := hsel row hrow
  simp [this]

/-- Witness for C10 at the concrete run `c2c`. -/
theorem C10_witness :
    (∀ row ∈ c2res.observations, row.selected = 1) ∧
    c2res.dimensions.observations_unselected = 0 :=
  C10_selected_constant c2c c2res rfl

/-! ## Claim C2 -/

/-- Claim C2 counterexample: in the report of the concrete run `c2c`
(expression ids 1-4, labels for 1, 2, 3, 9), the row of sample 4 — absent
from the original label set — has `status = -1` and `testing = -1` but
`selected = 1`, not `-1`, because `get_results` computes `selected` by
testing the id column against itself. -/
theorem C2_counterexample :
    exceptIsOk c2c.get_results = true ∧
    c2row.sample_id = 4 ∧ (4 : SampleId) ∉ y4.map Prod.fst ∧
    c2row ∈ c2res.observations ∧
    c2row.status = -1 ∧ c2row.testing = -1 ∧ ¬(c2row.selected = -1) := by decide

/-- Claim C2, amended: in both report builders a sample absent from the
original label set gets the `-1` sentinel in `status` and `testing`, but
never in `selected`: `get_results` sets `selected = 1` on every row (the
self-membership test), while `classify` sets `selected = 0` on unlabeled
rows (membership in the submitted sample ids). -/
theorem C2_sentinel_amended :
    (∀ (c : CognomlClassifier) (r : Results), c.get_results = .ok r →
      ∀ row ∈ r.observations, row.sample_id ∉ c.obs_df.map Prod.fst →
        row.status = -1 ∧ row.testing = -1 ∧ row.selected = 1) ∧
    (∀ (entropy : Nat) (read_data : Nat → XFrame) (grid_search : Pipeline)
        (sid : List SampleId) (mstat : List Int) (dv : Nat) (js : Bool) (r : Results),
      classify entropy read_data grid_search sid mstat dv js = .ok r →
      ∀ row ∈ r.observations, row.sample_id ∉ sid →
        row.status = -1 ∧ row.testing = -1 ∧ row.selected = 0) := by
  constructor
  · intro c r h row hrow hnot
    obtain ⟨pf, hp, hobs, hdims⟩ := get_results_ok h
    rw [hobs] at hrow
    obtain ⟨m, hm, hid, hst, hte, hs⟩ := mem_fillObs hrow
    have hids : (c.obs_df.map (fun o => (o.1, o.2, isinInt o.1 (c.x_test.map Prod.fst)))).map
        (fun o => o.1) = c.obs_df.map Prod.fst := by
      rw [List.map_map]; rfl
    have hnot2 : m.sample_id ∉
        (c.obs_df.map (fun o => (o.1, o.2, isinInt o.1 (c.x_test.map Prod.fst)))).map
          (fun o => o.1) := by
      rw [hids, ← hid]; exact hnot
    rcases mem_mergeRight_elim hm with ⟨h1, h2, _⟩ | hin
    · refine ⟨?_, ?_, ?_⟩
      · rw [hst, h1]; rfl
      · rw [hte, h2]; rfl
      · rw [hs]; exact isinInt_eq_one (List.mem_map_of_mem (fun m2 => m2.sample_id) hm)
    · exact absurd hin hnot2
  · intro entropy read_data grid_search sid mstat dv js r h row hrow hnot
    obtain ⟨obs1, pred, hsub, hobs⟩ := classify_ok h
    rw [hobs] at hrow
    obtain ⟨m, hm, hid, hst, hte, hs⟩ := mem_fillObs hrow
    have hnotm : m.sample_id ∉ sid := by rw [← hid]; exact hnot
    rcases mem_mergeRight_elim hm with ⟨h1, h2, _⟩ | hin
    · refine ⟨?_, ?_, ?_⟩
      · rw [hst, h1]; rfl
      · rw [hte, h2]; rfl
      · rw [hs]; exact isinInt_eq_zero hnotm
    · exact absurd (hsub m.sample_id hin) hnotm

/-- Witness for the amended C2: the unlabeled sample 4 in the
`get_results` run `c2c` (selected 1), and the unlabeled sample 5 in the
`classify` run `c2brun` (selected 0). -/
theorem C2_witness :
    (c2row.status = -1 ∧ c2row.testing = -1 ∧ c2row.selected = 1) ∧
    (c2brow.status = -1 ∧ c2brow.testing = -1 ∧ c2brow.selected = 0) := by
  constructor
  · exact C2_sentinel_amended.1 c2c c2res rfl c2row (by decide) (by decide)
  · exact C2_sentinel_amended.2 0 (fun _ => X6) pBasic [1, 2, 3, 4] [0, 0, 1, 1] 7 false
      c2bres rfl c2brow (by decide) (by decide)

/-! ## Claim C5 -/

/-- Claim C5: a successful `test_train_split` partitions the dataset:
train and test rows recombine to a permutation of the input rows (for
both `X` and the labels), duplicate-free ids never land on both sides,
and the partition restricts to a partition of every label class (the
stratified construction samples inside each class). -/
theorem C5_split_partition (c : CognomlClassifier) (entropy : Nat)
    (xtr xte : XFrame) (ytr yte : YSeries)
    (h : c.test_train_split entropy = .ok (xtr, xte, ytr, yte)) :
    List.Perm (xtr ++ xte) c.X ∧
    List.Perm (ytr ++ yte) c.obs_df ∧
    ((c.X.map Prod.fst).Nodup → ∀ s, s ∈ xtr.map Prod.fst → s ∉ xte.map Prod.fst) ∧
    (∀ v : Int, List.Perm
      (ytr.filter (fun o => o.2 == v) ++ yte.filter (fun o => o.2 == v))
      (c.obs_df.filter (fun o => o.2 == v))) := by
  unfold CognomlClassifier.test_train_split at h
  obtain ⟨flag, h1, h2, h3, h4⟩ := train_test_split_ok h
  subst h1; subst h2; subst h3; subst h4
  have hx := selectBy_not_append_perm c.X flag
  have hy := selectBy_not_append_perm c.obs_df flag
  refine ⟨hx, hy, ?_, ?_⟩
  · intro hnod s hstr hste
    obtain ⟨i, hfi, hgi⟩ := mem_selectBy_ids c.X (fun i => !flag i) s hstr
    obtain ⟨j, hfj, hgj⟩ := mem_selectBy_ids c.X flag s hste
    have hij : i = j := by
      have hilen : i < (c.X.map Prod.fst).length := by
        by_contra hge
        rw [List.getElem?_eq_none (Nat.le_of_not_lt hge)] at hgi
        cases hgi
      exact List.getElem?_inj hilen hnod (hgi.trans hgj.symm)
    rw [hij] at hfi
    rw [hfj] at hfi
    simp at hfi
  · intro v
    have hf := hy.filter (fun o => o.2 == v)
    rw [List.filter_append] at hf
    exact hf

/-- Witness for C5 at the concrete classifier `c2c`. -/
theorem C5_witness :
    c2c.test_train_split 0 = .ok (c2c.x_train, c2c.x_test, c2c.y_train, c2c.y_test) ∧
    List.Perm (c2c.x_train ++ c2c.x_test) c2c.X ∧
    List.Perm (c2c.y_train ++ c2c.y_test) c2c.obs_df ∧
    (∀ s, s ∈ c2c.x_train.map Prod.fst → s ∉ c2c.x_test.map Prod.fst) := by
  have h : c2c.test_train_split 0 = .ok (c2c.x_train, c2c.x_test, c2c.y_train, c2c.y_test) := rfl
  have hc := C5_split_partition c2c 0 c2c.x_train c2c.x_test c2c.y_train c2c.y_test h
  exact ⟨h, hc.1, hc.2.1, hc.2.2.1 (by decide)⟩

/-! ## Claim C6 -/

/-- Claim C6: `get_df_from_table` raises `KeyError` exactly on filenames
other than the two data files; for a valid filename it raises `IOError`
(pointing at `download_files`) exactly when both the pickle cache and the
raw file are absent; and every error leaves the filesystem unchanged. -/
theorem C6_get_df_errors (d : CognomlData) (fs : FS) (tsv_file : String) :
    ((tsv_file ∉ d.files_to_download) →
      d.get_df_from_table fs tsv_file =
        (fs, .error (.keyError "Not expected input, choose either the covariates file or the expressions file"))) ∧
    ((tsv_file ∈ d.files_to_download) →
      (∀ m, (d.get_df_from_table fs tsv_file).2 ≠ .error (.keyError m)) ∧
      ((∃ m, (d.get_df_from_table fs tsv_file).2 = .error (.ioError m)) ↔
        fs (pathJoin d.download_path (tsv_file ++ "_pickle")) = none ∧
        fs (pathJoin d.download_path tsv_file) = none)) ∧
    (∀ e, (d.get_df_from_table fs tsv_file).2 = .error e →
      (d.get_df_from_table fs tsv_file).1 = fs) := by
  by_cases hmem : tsv_file ∈ d.files_to_download
  · have hlk := lookup_pickle_some hmem
    have hunf : d.get_df_from_table fs tsv_file =
        match fs (pathJoin d.download_path (tsv_file ++ "_pickle")) with
        | some cached => (fs, .ok (read_pickle cached))
        | none =>
            match fs (pathJoin d.download_path tsv_file) with
            | none => (fs, .error (.ioError "bz2 file does not exist, try running download_files()"))
            | some raw =>
                (fsWrite fs (pathJoin d.download_path (tsv_file ++ "_pickle"))
                  (to_pickle (read_table raw)), .ok (read_table raw)) := by
      unfold CognomlData.get_df_from_table
      simp only [hlk]
    refine ⟨fun hn => absurd hmem hn, fun _ => ?_, ?_⟩
    · rw [hunf]
      cases hp : fs (pathJoin d.download_path (tsv_file ++ "_pickle")) with
      | some cached => simp
      | none =>
          cases hd : fs (pathJoin d.download_path tsv_file) with
          | none => simp
          | some raw => simp
    · intro e he
      rw [hunf] at he ⊢
      cases hp : fs (pathJoin d.download_path (tsv_file ++ "_pickle")) with
      | some cached => rfl
      | none =>
          rw [hp] at he
          cases hd : fs (pathJoin d.download_path tsv_file) with
          | none => rfl
          | some raw => rw [hd] at he; exact Except.noConfusion he
  · have hlk := lookup_pickle_none hmem
    have hunf : d.get_df_from_table fs tsv_file =
        (fs, .error (.keyError "Not expected input, choose either the covariates file or the expressions file")) := by
      unfold CognomlData.get_df_from_table
      simp only [hlk]
    exact ⟨fun _ => hunf, fun hy => absurd hy hmem, fun e he => by rw [hunf]⟩

/-- Witness for C6 at `d0`/`fs0`: an invalid filename raises `KeyError`
and leaves the filesystem untouched, and the valid covariates filename
(raw file present) is not an `IOError`. -/
theorem C6_witness :
    ("nope.tsv" ∉ d0.files_to_download) ∧
    d0.get_df_from_table fs0 "nope.tsv" =
      (fs0, .error (.keyError "Not expected input, choose either the covariates file or the expressions file")) ∧
    ("covariates.tsv" ∈ d0.files_to_download) ∧
    ¬ (∃ m, (d0.get_df_from_table fs0 "covariates.tsv").2 = .error (.ioError m)) := by
  have h1 := (C6_get_df_errors d0 fs0 "nope.tsv").1 (by decide)
  have h2 := ((C6_get_df_errors d0 fs0 "covariates.tsv").2.1 (by decide)).2
  refine ⟨by decide, h1, by decide, ?_⟩
  intro hex
  have := h2.mp hex
  exact absurd this.2 (by decide)

/-! ## Claim C7 -/

/-- Claim C7: `download_files` is idempotent per data file — a wanted
manifest entry whose target path already exists is not written (its
content is preserved), and a path other than `info.json` changes only if
it was absent and is the target of a wanted manifest entry (a listed file
is downloaded only when absent). -/
theorem C7_download_idempotent (d : CognomlData) (net : String → String)
    (article : Article) (fs : FS) :
    (∀ fi ∈ article.files, fi.name ∈ d.files_to_download → fi.name ≠ "info.json" →
      ∀ cont, fs (pathJoin d.download_path fi.name) = some cont →
        (d.download_files net article fs).1 (pathJoin d.download_path fi.name) = some cont) ∧
    (∀ p, p ≠ pathJoin d.download_path "info.json" →
      (d.download_files net article fs).1 p ≠ fs p →
        fs p = none ∧ ∃ fj ∈ article.files, fj.name ∈ d.files_to_download ∧
          p = pathJoin d.download_path fj.name) := by
  constructor
  · intro fi _ _ hnotinfo cont hex
    have hne : pathJoin d.download_path fi.name ≠ pathJoin d.download_path "info.json" :=
      fun he => hnotinfo (pathJoin_inj he)
    apply downloadLoop_keeps
    unfold fsWrite
    rw [if_neg hne]
    exact hex
  · intro p hpinfo h
    have hfs1 : fsWrite fs (pathJoin d.download_path "info.json") (dumpArticle article) p = fs p := by
      unfold fsWrite
      rw [if_neg hpinfo]
    by_cases hrest : downloadLoop net d
        (fsWrite fs (pathJoin d.download_path "info.json") (dumpArticle article)) article.files p =
        fsWrite fs (pathJoin d.download_path "info.json") (dumpArticle article) p
    · exact absurd (show (d.download_files net article fs).1 p = fs p from hrest.trans hfs1) h
    · obtain ⟨h1, fj, hj, hjn, hjp⟩ := downloadLoop_writes_only_absent net d article.files _ p hrest
      rw [hfs1] at h1
      exact ⟨h1, fj, hj, hjn, hjp⟩

/-- Witness for C7 at `d0`/`article0`/`fs0`: the already-present
covariates file keeps its bytes across `download_files`. -/
theorem C7_witness :
    fs0 (pathJoin d0.download_path "covariates.tsv") = some "raw tsv bytes" ∧
    (d0.download_files net0 article0 fs0).1 (pathJoin d0.download_path "covariates.tsv") =
      some "raw tsv bytes" := by
  have hfi : ({ name := "covariates.tsv", download_url := "urlA" } : FileInfo) ∈ article0.files := by
    decide
  have h := (C7_download_idempotent d0 net0 article0 fs0).1
    { name := "covariates.tsv", download_url := "urlA" } hfi (by decide) (by decide)
    "raw tsv bytes" (by decide)
  exact ⟨by decide, h⟩

/-! ## Claim C9 -/

set_option maxRecDepth 400000 in
/-- Claim C9: on the synthetic 100-sample dataset with 30 positives, the
construction succeeds, the fit call succeeds, and the report of the
fit/predict/get_results cycle has `dimensions.positives = 30`,
`training_observations + testing_observations = 100`, and a
`performance.cv.auroc` equal to the grid search's cross-validated AUROC,
a rational in the interval from 0 to 1 (17/20 for this estimator). -/
theorem C9_end_to_end :
    exceptIsOk (CognomlClassifier.make 0 X100 y100 c9pipeline (mkRat 1 10) true) = true ∧
    exceptIsOk c9c.fit = true ∧
    exceptIsOk c9results = true ∧
    c9dims.positives = 30 ∧
    c9dims.training_observations + c9dims.testing_observations = 100 ∧
    c9auroc = mkRat 17 20 ∧ 0 ≤ c9auroc ∧ c9auroc ≤ 1 := by decide
